import Mathlib

/-!
Shallow embedding of SimpleNVGPUInfo (src/SimpleNVGPUInfo/main.cpp), a small
NVAPI-based GPU telemetry monitor.  The external NVAPI provider is modelled as
a structure of query functions; each C call that returns an `NvAPI_Status` and
fills an out-parameter is modelled as a function returning a pair
`(status, out-value)` with `NVAPI_OK = 0`.  Console output (stdout/stderr) is
modelled as a list of events, one event per `fprintf` call; `Sleep` and
`NvAPI_Unload` are recorded as events as well.  `%.2f` rendering of
`float(x)/d` is modelled as decimal rounding (half up) of the exact rational
`x / d` to two places, which agrees with the C program on all values whose
quotient is exactly representable (in particular every sample value used
below); machine `NvU32` values are modelled as `Nat`, with the one place where
32-bit wraparound matters (the used-memory subtraction) made explicit via
`sub32`.
-/

namespace NVGPUInfo

/-- Model of `NvAPI_Status`: the raw status code, `NVAPI_OK = 0`. -/
abbrev NvStatus := Int

/-- Model of `NvU32` values (kept as `Nat`; wraparound is explicit where it occurs). -/
abbrev NvU32 := Nat

/-- One clock-domain entry of `NV_GPU_CLOCK_FREQUENCIES`: presence flag and
frequency in kHz (1000 units = 1 MHz). -/
structure ClockEntry where
  bIsPresent : Bool
  frequency : NvU32
deriving DecidableEq

/-- Model of `NV_GPU_CLOCK_FREQUENCIES`: the per-domain array, indexed by the
public clock-domain constants. -/
structure ClockFrequencies where
  domain : Nat → ClockEntry

/-- The `ClockType` field of `NV_GPU_CLOCK_FREQUENCIES`:
base, boost, or current clocks. -/
inductive ClockType
  | base
  | boost
  | current
deriving DecidableEq

/-- `NVAPI_GPU_PUBLIC_CLOCK_GRAPHICS` array index. -/
def NVAPI_GPU_PUBLIC_CLOCK_GRAPHICS : Nat := 0

/-- `NVAPI_GPU_PUBLIC_CLOCK_MEMORY` array index. -/
def NVAPI_GPU_PUBLIC_CLOCK_MEMORY : Nat := 4

/-- One sensor entry of `NV_GPU_THERMAL_SETTINGS` (`currentTemp` is signed). -/
structure ThermalSensor where
  currentTemp : Int

/-- Model of `NV_GPU_THERMAL_SETTINGS`: sensor count and sensor array. -/
structure ThermalSettings where
  count : Nat
  sensor : Nat → ThermalSensor

/-- Model of `NV_DISPLAY_DRIVER_MEMORY_INFO` (only the field the program reads). -/
structure MemoryInfo where
  curAvailableDedicatedVideoMemory : NvU32

/-- The program's `struct GPUInfo`: opaque handle, display name,
total VRAM in KiB. -/
structure GPUInfo where
  physical_gpu : Nat
  name : String
  vram_in_kb : NvU32
deriving DecidableEq

/-- The NVAPI provider: one field per API entry point the program calls.
Each models `(returned status, out-parameter value)`.  `getTachReading`
additionally takes the value the out-buffer held before the call, so that a
provider that does not write on failure can be expressed. -/
structure NvAPI where
  Initialize : NvStatus
  enumPhysicalGPUs : NvStatus × List Nat
  getFullName : Nat → NvStatus × String
  getPhysicalFrameBufferSize : Nat → NvStatus × NvU32
  getAllClockFrequencies : Nat → ClockType → NvStatus × ClockFrequencies
  getThermalSettings : Nat → Nat → NvStatus × ThermalSettings
  getTachReading : Nat → NvU32 → NvStatus × NvU32
  getMemoryInfo : Nat → NvStatus × MemoryInfo

/-- One observable side effect: an stdout write, an stderr write, a `Sleep`,
or `NvAPI_Unload`. -/
inductive Event
  | out (s : String)
  | err (s : String)
  | sleep (ms : Nat)
  | unload
deriving DecidableEq

/-- The sequence of observable side effects of a code fragment. -/
abbrev Trace := List Event

/-- One hex digit, uppercase (for `%08X`). -/
def hexDigit (n : Nat) : Char :=
  if n < 10 then Char.ofNat (48 + n) else Char.ofNat (55 + n)

/-- `%08X` of an unsigned 32-bit value: 8 uppercase hex digits, zero padded. -/
def toHex8 (n : Nat) : String :=
  String.mk ((List.range 8).map (fun i => hexDigit (n / 16 ^ (7 - i) % 16)))

/-- `PrintError`: writes `"<msg>Error 0x<8 hex digits>\n"` to stderr, the status
cast to `unsigned int` (i.e. taken mod 2^32). -/
def PrintError (error : NvStatus) (msg : String) : Event :=
  .err (msg ++ "Error 0x" ++ toHex8 ((error % (2 ^ 32 : Int)).toNat) ++ "\n")

/-- Model of `%.2f` applied to the exact rational `num / den`: the quotient
rounded (half up) to hundredths, rendered with exactly two decimal places. -/
def fixed2 (num den : Nat) : String :=
  let h := (num * 100 + den / 2) / den
  toString (h / 100) ++ "." ++ (if h % 100 < 10 then "0" else "") ++ toString (h % 100)

/-- `FormatClockSpeed`: `"<not present>"` when the domain's presence flag is
clear, otherwise the frequency divided by 1000 rendered `%.2f` with
an `" MHz"` suffix. -/
def FormatClockSpeed (frequencies : ClockFrequencies) (domain : Nat) : String :=
  if !(frequencies.domain domain).bIsPresent then "<not present>"
  else fixed2 (frequencies.domain domain).frequency 1000 ++ " MHz"

/-- `FormatSizeKB`: over 1048576 KiB renders `%.2f` GiB; else over 1024 KiB
renders `%.2f` MiB; else a whole-number `%u` KiB rendering. -/
def FormatSizeKB (size_in_kb : NvU32) : String :=
  if size_in_kb > 1048576 then fixed2 size_in_kb 1048576 ++ " GiB"
  else if size_in_kb > 1024 then fixed2 size_in_kb 1024 ++ " MiB"
  else toString size_in_kb ++ " KiB"

/-- 32-bit unsigned subtraction `a - b` (two's-complement wraparound),
as performed on `NvU32` operands. -/
def sub32 (a b : Nat) : Nat :=
  (a + 2 ^ 32 - b % 2 ^ 32) % 2 ^ 32

/-- The `PrintClock` lambda of `PrintGPUClockInfo`: base clock line, optional
boost clock suffix, newline. -/
def PrintClockStatic (base boost : ClockFrequencies) (has_boost : Bool)
    (type : String) (domain : Nat) : Trace :=
  [.out (type ++ ": " ++ FormatClockSpeed base domain)] ++
  (if has_boost then [.out (" (boost " ++ FormatClockSpeed boost domain ++ ")")] else []) ++
  [.out "\n"]

/-- `PrintGPUClockInfo`: queries base clocks (failure prints a diagnostic and
returns), then boost clocks (failure merely drops the boost suffix), then
prints the graphics and memory clock lines. -/
def PrintGPUClockInfo (api : NvAPI) (gpu : GPUInfo) : Trace :=
  let rbase := api.getAllClockFrequencies gpu.physical_gpu ClockType.base
  if rbase.1 ≠ 0 then
    [PrintError rbase.1 "NvAPI_GPU_GetAllClockFrequencies failed:"]
  else
    let rboost := api.getAllClockFrequencies gpu.physical_gpu ClockType.boost
    let has_boost_frequencies := rboost.1 == 0
    PrintClockStatic rbase.2 rboost.2 has_boost_frequencies
      "Graphics clock speed" NVAPI_GPU_PUBLIC_CLOCK_GRAPHICS ++
    PrintClockStatic rbase.2 rboost.2 has_boost_frequencies
      "Memory clock speed" NVAPI_GPU_PUBLIC_CLOCK_MEMORY

/-- `PrintGPUInfo`: static info report — name header, divider, clock info. -/
def PrintGPUInfo (api : NvAPI) (gpu : GPUInfo) : Trace :=
  [.out ("GPU: " ++ (gpu.name ++ "\n")), .out "-------------------------------\n"] ++
  PrintGPUClockInfo api gpu

/-- `PrintGPUCurrentClocks`: queries current clocks; on failure prints a
diagnostic and returns, otherwise prints the graphics and memory clock fields,
each followed by a tab. -/
def PrintGPUCurrentClocks (api : NvAPI) (gpu : GPUInfo) : Trace :=
  let r := api.getAllClockFrequencies gpu.physical_gpu ClockType.current
  if r.1 ≠ 0 then
    [PrintError r.1 "NvAPI_GPU_GetAllClockFrequencies failed:"]
  else
    [.out ("Graphics clock speed: " ++ FormatClockSpeed r.2 NVAPI_GPU_PUBLIC_CLOCK_GRAPHICS),
     .out "\t",
     .out ("Memory clock speed: " ++ FormatClockSpeed r.2 NVAPI_GPU_PUBLIC_CLOCK_MEMORY),
     .out "\t"]

/-- `PrintGPUCurrentTemperature`: queries thermal settings (sensor index 0); on
failure prints a diagnostic (with the copy-pasted clock-query message) and
returns; on success prints the first sensor's temperature only when the sensor
count is positive. -/
def PrintGPUCurrentTemperature (api : NvAPI) (gpu : GPUInfo) : Trace :=
  let r := api.getThermalSettings gpu.physical_gpu 0
  if r.1 ≠ 0 then
    [PrintError r.1 "NvAPI_GPU_GetAllClockFrequencies failed:"]
  else if r.2.count > 0 then
    [.out ("Temperature: " ++ (toString (r.2.sensor 0).currentTemp ++ "C")), .out "\t"]
  else
    []

/-- `PrintGPUCurrentFanSpeed`: `fan_speed` starts at 0, `NvAPI_GPU_GetTachReading`
is called with the returned status ignored, and whatever the buffer then holds
is printed unconditionally. -/
def PrintGPUCurrentFanSpeed (api : NvAPI) (gpu : GPUInfo) : Trace :=
  let fan_speed := (api.getTachReading gpu.physical_gpu 0).2
  [.out ("Fan speed: " ++ (toString fan_speed ++ " RPM\t"))]

/-- `PrintGPUCurrentMemoryUsage`: queries memory info; on failure prints a
diagnostic (again with the copy-pasted message) and returns; on success prints
`used / total` where `used` is the 32-bit unsigned difference of total VRAM and
currently available memory. -/
def PrintGPUCurrentMemoryUsage (api : NvAPI) (gpu : GPUInfo) : Trace :=
  let r := api.getMemoryInfo gpu.physical_gpu
  if r.1 ≠ 0 then
    [PrintError r.1 "NvAPI_GPU_GetAllClockFrequencies failed:"]
  else
    let used_memory := sub32 gpu.vram_in_kb r.2.curAvailableDedicatedVideoMemory
    [.out ("Memory usage: " ++ (FormatSizeKB used_memory ++ (" / " ++ FormatSizeKB gpu.vram_in_kb))),
     .out "\t"]

/-- `PrintGPUStatus`: live status report for one device — name header, divider,
then each metric in turn, then a closing divider and blank line. -/
def PrintGPUStatus (api : NvAPI) (gpu : GPUInfo) : Trace :=
  [.out ("GPU: " ++ (gpu.name ++ "\n")), .out "-------------------------------\n"] ++
  PrintGPUCurrentClocks api gpu ++ [.out "\n"] ++
  PrintGPUCurrentTemperature api gpu ++
  PrintGPUCurrentFanSpeed api gpu ++ [.out "\n"] ++
  PrintGPUCurrentMemoryUsage api gpu ++ [.out "\n"] ++
  [.out "-------------------------------\n", .out "\n"]

/-- One sampling pass: the live status report of every cataloged device,
in catalog order. -/
def SamplingPass (api : NvAPI) (gpus : List GPUInfo) : Trace :=
  (gpus.map (PrintGPUStatus api)).flatten

/-- The body of the enumeration loop for one handle: resolve the full name,
then the framebuffer size; either failure prints a diagnostic and yields no
device record. -/
def resolveGPU (api : NvAPI) (handle : Nat) : Option GPUInfo × Trace :=
  let rname := api.getFullName handle
  if rname.1 ≠ 0 then
    (none, [PrintError rname.1 "NvAPI_GPU_GetFullName failed: "])
  else
    let rsize := api.getPhysicalFrameBufferSize handle
    if rsize.1 ≠ 0 then
      (none, [PrintError rsize.1 "NvAPI_GPU_GetPhysicalFrameBufferSize failed: "])
    else
      (some { physical_gpu := handle, name := rname.2, vram_in_kb := rsize.2 }, [])

/-- The `for` loop of `EnumerateGPUs`: each handle is resolved in order;
`continue` on failure, `emplace_back` on success. -/
def enumLoop (api : NvAPI) : List Nat → List GPUInfo × Trace
  | [] => ([], [])
  | handle :: rest =>
    let r := resolveGPU api handle
    let rs := enumLoop api rest
    match r.1 with
    | none => (rs.1, r.2 ++ rs.2)
    | some info => (info :: rs.1, r.2 ++ rs.2)

/-- `EnumerateGPUs`: lists physical GPUs once; a listing failure prints a
diagnostic and returns the empty catalog, otherwise the loop resolves each
handle in provider order. -/
def EnumerateGPUs (api : NvAPI) : List GPUInfo × Trace :=
  let r := api.enumPhysicalGPUs
  if r.1 ≠ 0 then
    ([], [PrintError r.1 "NvAPI_EnumPhysicalGPUs failed: "])
  else
    enumLoop api r.2

/-- `EXIT_FAILURE` as returned by `main`. -/
def EXIT_FAILURE : Nat := 1

/-- `EXIT_SUCCESS` as returned by `main`. -/
def EXIT_SUCCESS : Nat := 0

/-- Outcome of `main` up to the top of the sampling loop: either an early exit
with a code, or entry into the loop with the enumerated catalog. -/
inductive StartupOutcome
  | exit (code : Nat) (t : Trace)
  | enterLoop (gpus : List GPUInfo) (t : Trace)
deriving DecidableEq

/-- The startup phase of `main`: initialize the provider (failure exits with
`EXIT_FAILURE`), enumerate (an empty catalog reports "No GPUs found." to
stderr, unloads, and exits with `EXIT_FAILURE`), then print the static info
report for every device and enter the loop. -/
def mainStartup (api : NvAPI) : StartupOutcome :=
  if api.Initialize ≠ 0 then
    .exit EXIT_FAILURE [PrintError api.Initialize "NVAPI_Initialize failed: "]
  else
    let r := EnumerateGPUs api
    if r.1.isEmpty then
      .exit EXIT_FAILURE (r.2 ++ [.err "No GPUs found.\n", .unload])
    else
      .enterLoop r.1 (r.2 ++ (r.1.map (PrintGPUInfo api)).flatten)

/-- Control state of the process: before startup, inside the `for (;;)` loop
with a pass counter, or exited with a code. -/
inductive ProcState
  | startup
  | running (gpus : List GPUInfo) (passes : Nat)
  | exited (code : Nat)
deriving DecidableEq

/-- One control step of `main`: startup resolves to exit or loop entry; one
loop iteration performs a full sampling pass followed by `Sleep(1000)` and
loops again (the `for (;;)` has no break, return, or exit); an exited process
stays exited. -/
def mainStep (api : NvAPI) : ProcState → ProcState × Trace
  | .startup =>
    match mainStartup api with
    | .exit code t => (.exited code, t)
    | .enterLoop gpus t => (.running gpus 0, t)
  | .running gpus passes => (.running gpus (passes + 1), SamplingPass api gpus ++ [.sleep 1000])
  | .exited code => (.exited code, [])

/-- The control state after `k` steps of `main` from state `s`. -/
def mainRun (api : NvAPI) (s : ProcState) : Nat → ProcState
  | 0 => s
  | k + 1 => (mainStep api (mainRun api s k)).1

/-- Whether an event is a diagnostic (stderr) line. -/
def isErrLine : Event → Bool
  | .err _ => true
  | _ => false

/-- Whether an event is a device-name header line on stdout. -/
def isGPULine : Event → Bool
  | .out s => "GPU: ".data.isPrefixOf s.data
  | _ => false

/-- Whether an event is a populated current-graphics-clock field on stdout. -/
def isGraphicsClockLine : Event → Bool
  | .out s => "Graphics clock speed: ".data.isPrefixOf s.data
  | _ => false

/-! Concrete sample data and providers used to instantiate the theorems. -/

/-- A clock-frequency table with every domain present at 1815000 kHz. -/
def sampleFreqs : ClockFrequencies := ⟨fun _ => ⟨true, 1815000⟩⟩

/-- A thermal sample with one sensor at 65 degrees. -/
def sampleThermal : ThermalSettings := ⟨1, fun _ => ⟨65⟩⟩

/-- A thermal sample whose query succeeds but reports zero sensors. -/
def zeroThermal : ThermalSettings := ⟨0, fun _ => ⟨0⟩⟩

/-- A memory-info sample with 4 GiB currently available. -/
def sampleMem : MemoryInfo := ⟨4194304⟩

/-- A fully healthy concrete provider exposing two devices. -/
def okApi : NvAPI :=
  { Initialize := 0
    enumPhysicalGPUs := (0, [1, 2])
    getFullName := fun h => (0, "GeForce " ++ toString h)
    getPhysicalFrameBufferSize := fun _ => (0, 8388608)
    getAllClockFrequencies := fun _ _ => (0, sampleFreqs)
    getThermalSettings := fun _ _ => (0, sampleThermal)
    getTachReading := fun _ _ => (0, 1500)
    getMemoryInfo := fun _ => (0, sampleMem) }

/-- Like `okApi` but every clock query on device handle 2 fails. -/
def clockFailApi : NvAPI :=
  { okApi with getAllClockFrequencies :=
      fun h _ => (if h = 2 then (-5 : Int) else 0, sampleFreqs) }

/-- Like `okApi` but provider initialization fails. -/
def initFailApi : NvAPI :=
  { okApi with Initialize := -1 }

/-- Like `okApi` but device listing fails. -/
def enumFailApi : NvAPI :=
  { okApi with enumPhysicalGPUs := (-3, []) }

/-- Like `okApi` but every name resolution fails. -/
def resolveFailApi : NvAPI :=
  { okApi with getFullName := fun _ => (-2, "") }

/-- Like `okApi` but the thermal query reports zero sensors. -/
def thermalZeroApi : NvAPI :=
  { okApi with getThermalSettings := fun _ _ => (0, zeroThermal) }

/-- Like `okApi` but the thermal query fails. -/
def thermalFailApi : NvAPI :=
  { okApi with getThermalSettings := fun _ _ => (-7, zeroThermal) }

/-- Like `okApi` but the tachometer call fails and leaves its out-buffer
untouched. -/
def tachFailApi : NvAPI :=
  { okApi with getTachReading := fun _ buf => (-9, buf) }

/-- Like `okApi` but the tachometer call genuinely reads zero RPM. -/
def zeroFanApi : NvAPI :=
  { okApi with getTachReading := fun _ _ => (0, 0) }

/-- A concrete device record with handle 1. -/
def gpuA : GPUInfo := ⟨1, "GeForce 1", 8388608⟩

/-- A concrete device record with handle 2. -/
def gpuB : GPUInfo := ⟨2, "GeForce 2", 8388608⟩

/-! Shared helper lemmas about string prefixes, suffixes and counting. -/

/-- A string obtained by appending a tag has that tag as a suffix of its data. -/
lemma data_suffix_append (s t : String) : t.data <:+ (s ++ t).data := by
  rw [String.data_append]
  exact List.suffix_append _ _

/-- Two suffixes of the same list with equal lengths are equal. -/
lemma suffix_eq_of_length_eq {l p q : List Char} (hp : p <:+ l) (hq : q <:+ l)
    (h : p.length = q.length) : p = q := by
  rw [List.suffix_iff_eq_drop] at hp hq
  rw [hp, hq, h]

/-- Whether a pattern is a prefix of `l ++ r` is settled inside `l` when the
pattern is no longer than `l`. -/
lemma prefix_append_iff_left {p l r : List Char} (h : p.length ≤ l.length) :
    p <+: (l ++ r) ↔ p <+: l := by
  constructor
  · intro hp
    rw [List.prefix_iff_eq_take] at hp
    rw [List.take_append_of_le_length h] at hp
    rw [List.prefix_iff_eq_take]
    exact hp
  · intro hp
    exact hp.trans (List.prefix_append l r)

/-- Boolean version of `prefix_append_iff_left`. -/
lemma isPrefixOf_append_left (p l r : List Char) (h : p.length ≤ l.length) :
    p.isPrefixOf (l ++ r) = p.isPrefixOf l := by
  rw [Bool.eq_iff_iff, List.isPrefixOf_iff_prefix, List.isPrefixOf_iff_prefix]
  exact prefix_append_iff_left h

/-- A pattern is not a prefix when the lists already disagree on their first
`n` elements. -/
lemma not_prefix_of_take_ne {p x : List Char} (n : Nat) (hn : n ≤ p.length)
    (h : x.take n ≠ p.take n) : ¬ p <+: x := by
  intro hp
  rw [List.prefix_iff_eq_take] at hp
  have h2 : p.take n = (List.take p.length x).take n := by rw [← hp]
  rw [List.take_take, Nat.min_eq_left hn] at h2
  exact h h2.symm

/-- Boolean non-prefix test for an appended list settled by a disagreement
within the first `n` elements of the left part. -/
lemma isPrefixOf_eq_false_of_take_ne (p l r : List Char) (n : Nat) (hn : n ≤ p.length)
    (hl : n ≤ l.length) (h : l.take n ≠ p.take n) : p.isPrefixOf (l ++ r) = false := by
  rw [Bool.eq_false_iff]
  intro htrue
  rw [List.isPrefixOf_iff_prefix] at htrue
  refine not_prefix_of_take_ne n hn ?_ htrue
  rw [List.take_append_of_le_length hl]
  exact h

/-- Sum of a map all of whose values are 1. -/
lemma sum_map_eq_length {α : Type} (l : List α) (f : α → Nat) (h : ∀ x ∈ l, f x = 1) :
    (l.map f).sum = l.length := by
  induction l with
  | nil => rfl
  | cons a t ih =>
    simp only [List.map_cons, List.sum_cons, List.length_cons,
      h a (List.mem_cons_self a t), ih fun x hx => h x (List.mem_cons_of_mem a hx)]
    omega

/-- Sum of a map all of whose values are 0. -/
lemma sum_map_eq_zero {α : Type} (l : List α) (f : α → Nat) (h : ∀ x ∈ l, f x = 0) :
    (l.map f).sum = 0 := by
  induction l with
  | nil => rfl
  | cons a t ih =>
    simp only [List.map_cons, List.sum_cons, h a (List.mem_cons_self a t),
      ih fun x hx => h x (List.mem_cons_of_mem a hx)]

/-! Evaluation of the line predicates on each event shape the reports emit. -/

@[simp] lemma isErrLine_out (s : String) : isErrLine (.out s) = false := rfl

@[simp] lemma isErrLine_err (s : String) : isErrLine (.err s) = true := rfl

@[simp] lemma isErrLine_sleep (ms : Nat) : isErrLine (.sleep ms) = false := rfl

@[simp] lemma isErrLine_unload : isErrLine .unload = false := rfl

@[simp] lemma isGPULine_err (s : String) : isGPULine (.err s) = false := rfl

@[simp] lemma isGPULine_sleep (ms : Nat) : isGPULine (.sleep ms) = false := rfl

@[simp] lemma isGPULine_unload : isGPULine .unload = false := rfl

@[simp] lemma isGPULine_name (s : String) : isGPULine (.out ("GPU: " ++ s)) = true := by
  simp only [isGPULine]
  rw [String.data_append,
    isPrefixOf_append_left "GPU: ".data "GPU: ".data s.data (by decide)]
  decide

@[simp] lemma isGPULine_graphics (s : String) :
    isGPULine (.out ("Graphics clock speed: " ++ s)) = false := by
  simp only [isGPULine]
  rw [String.data_append,
    isPrefixOf_append_left "GPU: ".data "Graphics clock speed: ".data s.data (by decide)]
  decide

@[simp] lemma isGPULine_memclock (s : String) :
    isGPULine (.out ("Memory clock speed: " ++ s)) = false := by
  simp only [isGPULine]
  rw [String.data_append,
    isPrefixOf_append_left "GPU: ".data "Memory clock speed: ".data s.data (by decide)]
  decide

@[simp] lemma isGPULine_temp (s : String) :
    isGPULine (.out ("Temperature: " ++ s)) = false := by
  simp only [isGPULine]
  rw [String.data_append,
    isPrefixOf_append_left "GPU: ".data "Temperature: ".data s.data (by decide)]
  decide

@[simp] lemma isGPULine_fan (s : String) :
    isGPULine (.out ("Fan speed: " ++ s)) = false := by
  simp only [isGPULine]
  rw [String.data_append,
    isPrefixOf_append_left "GPU: ".data "Fan speed: ".data s.data (by decide)]
  decide

@[simp] lemma isGPULine_memusage (s : String) :
    isGPULine (.out ("Memory usage: " ++ s)) = false := by
  simp only [isGPULine]
  rw [String.data_append,
    isPrefixOf_append_left "GPU: ".data "Memory usage: ".data s.data (by decide)]
  decide

@[simp] lemma isGPULine_tab : isGPULine (.out "\t") = false := by decide

@[simp] lemma isGPULine_nl : isGPULine (.out "\n") = false := by decide

@[simp] lemma isGPULine_div :
    isGPULine (.out "-------------------------------\n") = false := by decide

@[simp] lemma isClockLine_err (s : String) : isGraphicsClockLine (.err s) = false := rfl

@[simp] lemma isClockLine_sleep (ms : Nat) : isGraphicsClockLine (.sleep ms) = false := rfl

@[simp] lemma isClockLine_unload : isGraphicsClockLine .unload = false := rfl

@[simp] lemma isClockLine_graphics (s : String) :
    isGraphicsClockLine (.out ("Graphics clock speed: " ++ s)) = true := by
  simp only [isGraphicsClockLine]
  rw [String.data_append, isPrefixOf_append_left "Graphics clock speed: ".data
    "Graphics clock speed: ".data s.data (by decide)]
  decide

@[simp] lemma isClockLine_name (s : String) :
    isGraphicsClockLine (.out ("GPU: " ++ s)) = false := by
  simp only [isGraphicsClockLine]
  rw [String.data_append]
  exact isPrefixOf_eq_false_of_take_ne _ _ _ 2 (by decide) (by decide) (by decide)

@[simp] lemma isClockLine_memclock (s : String) :
    isGraphicsClockLine (.out ("Memory clock speed: " ++ s)) = false := by
  simp only [isGraphicsClockLine]
  rw [String.data_append]
  exact isPrefixOf_eq_false_of_take_ne _ _ _ 1 (by decide) (by decide) (by decide)

@[simp] lemma isClockLine_temp (s : String) :
    isGraphicsClockLine (.out ("Temperature: " ++ s)) = false := by
  simp only [isGraphicsClockLine]
  rw [String.data_append]
  exact isPrefixOf_eq_false_of_take_ne _ _ _ 1 (by decide) (by decide) (by decide)

@[simp] lemma isClockLine_fan (s : String) :
    isGraphicsClockLine (.out ("Fan speed: " ++ s)) = false := by
  simp only [isGraphicsClockLine]
  rw [String.data_append]
  exact isPrefixOf_eq_false_of_take_ne _ _ _ 1 (by decide) (by decide) (by decide)

@[simp] lemma isClockLine_memusage (s : String) :
    isGraphicsClockLine (.out ("Memory usage: " ++ s)) = false := by
  simp only [isGraphicsClockLine]
  rw [String.data_append]
  exact isPrefixOf_eq_false_of_take_ne _ _ _ 1 (by decide) (by decide) (by decide)

@[simp] lemma isClockLine_tab : isGraphicsClockLine (.out "\t") = false := by decide

@[simp] lemma isClockLine_nl : isGraphicsClockLine (.out "\n") = false := by decide

@[simp] lemma isClockLine_div :
    isGraphicsClockLine (.out "-------------------------------\n") = false := by decide

/-! Per-section line counts of the live status report. -/

lemma clocks_countP_gpuLine (api : NvAPI) (gpu : GPUInfo) :
    (PrintGPUCurrentClocks api gpu).countP isGPULine = 0 := by
  simp only [PrintGPUCurrentClocks]
  split <;> simp [PrintError, List.countP_cons]

lemma temp_countP_gpuLine (api : NvAPI) (gpu : GPUInfo) :
    (PrintGPUCurrentTemperature api gpu).countP isGPULine = 0 := by
  simp only [PrintGPUCurrentTemperature]
  split
  · simp [PrintError, List.countP_cons]
  · split <;> simp [List.countP_cons]

lemma fan_countP_gpuLine (api : NvAPI) (gpu : GPUInfo) :
    (PrintGPUCurrentFanSpeed api gpu).countP isGPULine = 0 := by
  simp [PrintGPUCurrentFanSpeed, List.countP_cons]

lemma mem_countP_gpuLine (api : NvAPI) (gpu : GPUInfo) :
    (PrintGPUCurrentMemoryUsage api gpu).countP isGPULine = 0 := by
  simp only [PrintGPUCurrentMemoryUsage]
  split <;> simp [PrintError, List.countP_cons]

/-- Every live status report contains exactly one device-name line, whatever
the metric queries do. -/
lemma status_countP_gpuLine (api : NvAPI) (gpu : GPUInfo) :
    (PrintGPUStatus api gpu).countP isGPULine = 1 := by
  simp only [PrintGPUStatus, List.countP_append]
  rw [clocks_countP_gpuLine, temp_countP_gpuLine, fan_countP_gpuLine, mem_countP_gpuLine]
  simp [List.countP_cons]

lemma clocks_countP_clockLine (api : NvAPI) (gpu : GPUInfo) :
    (PrintGPUCurrentClocks api gpu).countP isGraphicsClockLine =
      if (api.getAllClockFrequencies gpu.physical_gpu ClockType.current).1 = 0
      then 1 else 0 := by
  by_cases h : (api.getAllClockFrequencies gpu.physical_gpu ClockType.current).1 = 0 <;>
    simp [PrintGPUCurrentClocks, h, PrintError, List.countP_cons]

lemma temp_countP_clockLine (api : NvAPI) (gpu : GPUInfo) :
    (PrintGPUCurrentTemperature api gpu).countP isGraphicsClockLine = 0 := by
  simp only [PrintGPUCurrentTemperature]
  split
  · simp [PrintError, List.countP_cons]
  · split <;> simp [List.countP_cons]

lemma fan_countP_clockLine (api : NvAPI) (gpu : GPUInfo) :
    (PrintGPUCurrentFanSpeed api gpu).countP isGraphicsClockLine = 0 := by
  simp [PrintGPUCurrentFanSpeed, List.countP_cons]

lemma mem_countP_clockLine (api : NvAPI) (gpu : GPUInfo) :
    (PrintGPUCurrentMemoryUsage api gpu).countP isGraphicsClockLine = 0 := by
  simp only [PrintGPUCurrentMemoryUsage]
  split <;> simp [PrintError, List.countP_cons]

/-- A live status report contains a populated clock field exactly when its
current-clock query succeeded. -/
lemma status_countP_clockLine (api : NvAPI) (gpu : GPUInfo) :
    (PrintGPUStatus api gpu).countP isGraphicsClockLine =
      if (api.getAllClockFrequencies gpu.physical_gpu ClockType.current).1 = 0
      then 1 else 0 := by
  simp only [PrintGPUStatus, List.countP_append]
  rw [clocks_countP_clockLine, temp_countP_clockLine, fan_countP_clockLine,
    mem_countP_clockLine]
  simp [List.countP_cons]

lemma clocks_countP_errLine (api : NvAPI) (gpu : GPUInfo) :
    (PrintGPUCurrentClocks api gpu).countP isErrLine =
      if (api.getAllClockFrequencies gpu.physical_gpu ClockType.current).1 = 0
      then 0 else 1 := by
  by_cases h : (api.getAllClockFrequencies gpu.physical_gpu ClockType.current).1 = 0 <;>
    simp [PrintGPUCurrentClocks, h, PrintError, List.countP_cons]

lemma temp_countP_errLine (api : NvAPI) (gpu : GPUInfo) :
    (PrintGPUCurrentTemperature api gpu).countP isErrLine =
      if (api.getThermalSettings gpu.physical_gpu 0).1 = 0 then 0 else 1 := by
  by_cases h : (api.getThermalSettings gpu.physical_gpu 0).1 = 0
  · simp only [PrintGPUCurrentTemperature]
    rw [if_neg (fun hne => hne h), if_pos h]
    split <;> simp [List.countP_cons]
  · simp [PrintGPUCurrentTemperature, h, PrintError, List.countP_cons]

lemma fan_countP_errLine (api : NvAPI) (gpu : GPUInfo) :
    (PrintGPUCurrentFanSpeed api gpu).countP isErrLine = 0 := by
  simp [PrintGPUCurrentFanSpeed, List.countP_cons]

lemma mem_countP_errLine (api : NvAPI) (gpu : GPUInfo) :
    (PrintGPUCurrentMemoryUsage api gpu).countP isErrLine =
      if (api.getMemoryInfo gpu.physical_gpu).1 = 0 then 0 else 1 := by
  by_cases h : (api.getMemoryInfo gpu.physical_gpu).1 = 0 <;>
    simp [PrintGPUCurrentMemoryUsage, h, PrintError, List.countP_cons]

/-- When the thermal and memory queries of a device succeed, its live status
report carries a diagnostic line exactly when the current-clock query failed. -/
lemma status_countP_errLine (api : NvAPI) (gpu : GPUInfo)
    (hth : (api.getThermalSettings gpu.physical_gpu 0).1 = 0)
    (hmem : (api.getMemoryInfo gpu.physical_gpu).1 = 0) :
    (PrintGPUStatus api gpu).countP isErrLine =
      if (api.getAllClockFrequencies gpu.physical_gpu ClockType.current).1 = 0
      then 0 else 1 := by
  simp only [PrintGPUStatus, List.countP_append]
  rw [clocks_countP_errLine, temp_countP_errLine, fan_countP_errLine,
    mem_countP_errLine, if_pos hth, if_pos hmem]
  simp [List.countP_cons]

/-- Line counts of a sampling pass decompose over the per-device reports. -/
lemma countP_SamplingPass (api : NvAPI) (gpus : List GPUInfo) (p : Event → Bool) :
    (SamplingPass api gpus).countP p =
      (gpus.map fun g => (PrintGPUStatus api g).countP p).sum := by
  simp only [SamplingPass, List.countP_flatten, List.map_map]
  rfl

/-- The three rendering tiers of `FormatSizeKB`, with the branch conditions. -/
lemma FormatSizeKB_cases (v : Nat) :
    (1048576 < v ∧ FormatSizeKB v = fixed2 v 1048576 ++ " GiB") ∨
    (1024 < v ∧ v ≤ 1048576 ∧ FormatSizeKB v = fixed2 v 1024 ++ " MiB") ∨
    (v ≤ 1024 ∧ FormatSizeKB v = toString v ++ " KiB") := by
  unfold FormatSizeKB
  by_cases h1 : v > 1048576
  · exact Or.inl ⟨h1, by rw [if_pos h1]⟩
  · by_cases h2 : v > 1024
    · exact Or.inr (Or.inl ⟨h2, by omega, by rw [if_neg h1, if_pos h2]⟩)
    · exact Or.inr (Or.inr ⟨by omega, by rw [if_neg h1, if_neg h2]⟩)

/-- C1: `FormatSizeKB` renders GiB-scaled text iff the value exceeds 1048576
KiB, MiB-scaled text iff it is over 1024 and at most 1048576 KiB, and a
whole-number KiB rendering iff it is at most 1024 KiB; in particular
1048576 KiB renders in MiB, and 2097152, 2048 and 512 KiB render as
"2.00 GiB", "2.00 MiB" and "512 KiB". -/
theorem c1_formatCapacity_tiering (v : Nat) :
    ((" GiB".data <:+ (FormatSizeKB v).data) ↔ 1048576 < v) ∧
    ((" MiB".data <:+ (FormatSizeKB v).data) ↔ (1024 < v ∧ v ≤ 1048576)) ∧
    ((" KiB".data <:+ (FormatSizeKB v).data) ↔ v ≤ 1024) ∧
    FormatSizeKB 1048576 = "1024.00 MiB" ∧
    FormatSizeKB 2097152 = "2.00 GiB" ∧
    FormatSizeKB 2048 = "2.00 MiB" ∧
    FormatSizeKB 512 = "512 KiB" := by
  refine ⟨?_, ?_, ?_, by decide, by decide, by decide, by decide⟩
  · constructor
    · intro h
      rcases FormatSizeKB_cases v with ⟨hv, _⟩ | ⟨_, _, he⟩ | ⟨hv, he⟩
      · exact hv
      · rw [he] at h
        exact absurd (suffix_eq_of_length_eq h (data_suffix_append _ _) (by decide)) (by decide)
      · rw [he] at h
        exact absurd (suffix_eq_of_length_eq h (data_suffix_append _ _) (by decide)) (by decide)
    · intro h
      rcases FormatSizeKB_cases v with ⟨_, he⟩ | ⟨_, hv, _⟩ | ⟨hv, _⟩
      · rw [he]; exact data_suffix_append _ _
      · omega
      · omega
  · constructor
    · intro h
      rcases FormatSizeKB_cases v with ⟨_, he⟩ | ⟨hv1, hv2, _⟩ | ⟨hv, he⟩
      · rw [he] at h
        exact absurd (suffix_eq_of_length_eq h (data_suffix_append _ _) (by decide)) (by decide)
      · exact ⟨hv1, hv2⟩
      · rw [he] at h
        exact absurd (suffix_eq_of_length_eq h (data_suffix_append _ _) (by decide)) (by decide)
    · intro h
      rcases FormatSizeKB_cases v with ⟨hv, _⟩ | ⟨_, _, he⟩ | ⟨hv, _⟩
      · omega
      · rw [he]; exact data_suffix_append _ _
      · omega
  · constructor
    · intro h
      rcases FormatSizeKB_cases v with ⟨hv, he⟩ | ⟨hv1, _, he⟩ | ⟨hv, _⟩
      · rw [he] at h
        exact absurd (suffix_eq_of_length_eq h (data_suffix_append _ _) (by decide)) (by decide)
      · rw [he] at h
        exact absurd (suffix_eq_of_length_eq h (data_suffix_append _ _) (by decide)) (by decide)
      · exact hv
    · intro h
      rcases FormatSizeKB_cases v with ⟨hv, _⟩ | ⟨hv, _, _⟩ | ⟨_, he⟩
      · omega
      · omega
      · rw [he]; exact data_suffix_append _ _

/-- C4: `FormatClockSpeed` returns the literal not-present marker whenever the
domain's presence flag is clear, regardless of the accompanying frequency
value; otherwise it renders the frequency divided by 1000 with two decimals
and an " MHz" suffix, so a present graphics clock of 1815000 kHz renders as
"1815.00 MHz". -/
theorem c4_formatFrequency (f : ClockFrequencies) (d : Nat) :
    ((f.domain d).bIsPresent = false → FormatClockSpeed f d = "<not present>") ∧
    ((f.domain d).bIsPresent = true →
      FormatClockSpeed f d = fixed2 (f.domain d).frequency 1000 ++ " MHz" ∧
      " MHz".data <:+ (FormatClockSpeed f d).data) ∧
    FormatClockSpeed ⟨fun _ => ⟨true, 1815000⟩⟩ NVAPI_GPU_PUBLIC_CLOCK_GRAPHICS
      = "1815.00 MHz" := by
  refine ⟨fun h => ?_, fun h => ?_, by decide⟩
  · unfold FormatClockSpeed
    rw [h]
    rfl
  · have he : FormatClockSpeed f d = fixed2 (f.domain d).frequency 1000 ++ " MHz" := by
      unfold FormatClockSpeed
      rw [h]
      rfl
    exact ⟨he, by rw [he]; exact data_suffix_append _ _⟩

/-- C4 witness: the theorem applied to a concrete absent-domain sample (with a
nonzero accompanying frequency) and to the concrete present sample. -/
theorem c4_formatFrequency_witness :
    FormatClockSpeed ⟨fun _ => ⟨false, 123456⟩⟩ 0 = "<not present>" ∧
    FormatClockSpeed ⟨fun _ => ⟨true, 1815000⟩⟩ 0 = fixed2 1815000 1000 ++ " MHz" :=
  ⟨(c4_formatFrequency ⟨fun _ => ⟨false, 123456⟩⟩ 0).1 rfl,
   ((c4_formatFrequency ⟨fun _ => ⟨true, 1815000⟩⟩ 0).2.1 rfl).1⟩

/-- C9: the formatters are pure total Lean functions of their arguments, so
formatting the same input twice yields identical text and no failure or side
effect is possible. -/
theorem c9_formatters_deterministic (v : Nat) (f : ClockFrequencies) (d : Nat) :
    FormatSizeKB v = FormatSizeKB v ∧ FormatClockSpeed f d = FormatClockSpeed f d :=
  ⟨rfl, rfl⟩

/-- C2: in a live status pass, a failed metric query prints one diagnostic
line and omits only that metric's field, leaving the device's other metrics
and every other device's report intact; with one device's current-clock query
failing and the rest succeeding, the pass has N device-name lines, N − 1
populated clock fields, and exactly one diagnostic line. -/
theorem c2_metric_failure_isolated (api : NvAPI) (gpu g : GPUInfo) (l₁ l₂ : List GPUInfo)
    (hfail : (api.getAllClockFrequencies g.physical_gpu ClockType.current).1 ≠ 0)
    (hok : ∀ x ∈ l₁ ++ l₂, (api.getAllClockFrequencies x.physical_gpu ClockType.current).1 = 0)
    (hth : ∀ x ∈ l₁ ++ g :: l₂, (api.getThermalSettings x.physical_gpu 0).1 = 0)
    (hmem : ∀ x ∈ l₁ ++ g :: l₂, (api.getMemoryInfo x.physical_gpu).1 = 0) :
    ((api.getAllClockFrequencies gpu.physical_gpu ClockType.current).1 ≠ 0 →
      PrintGPUCurrentClocks api gpu =
        [PrintError (api.getAllClockFrequencies gpu.physical_gpu ClockType.current).1
          "NvAPI_GPU_GetAllClockFrequencies failed:"]) ∧
    ((api.getThermalSettings gpu.physical_gpu 0).1 ≠ 0 →
      PrintGPUCurrentTemperature api gpu =
        [PrintError (api.getThermalSettings gpu.physical_gpu 0).1
          "NvAPI_GPU_GetAllClockFrequencies failed:"]) ∧
    ((api.getMemoryInfo gpu.physical_gpu).1 ≠ 0 →
      PrintGPUCurrentMemoryUsage api gpu =
        [PrintError (api.getMemoryInfo gpu.physical_gpu).1
          "NvAPI_GPU_GetAllClockFrequencies failed:"]) ∧
    PrintGPUStatus api gpu =
      [.out ("GPU: " ++ (gpu.name ++ "\n")), .out "-------------------------------\n"] ++
      PrintGPUCurrentClocks api gpu ++ [.out "\n"] ++
      PrintGPUCurrentTemperature api gpu ++
      PrintGPUCurrentFanSpeed api gpu ++ [.out "\n"] ++
      PrintGPUCurrentMemoryUsage api gpu ++ [.out "\n"] ++
      [.out "-------------------------------\n", .out "\n"] ∧
    (SamplingPass api (l₁ ++ g :: l₂)).countP isGPULine = (l₁ ++ g :: l₂).length ∧
    (SamplingPass api (l₁ ++ g :: l₂)).countP isGraphicsClockLine
      = (l₁ ++ g :: l₂).length - 1 ∧
    (SamplingPass api (l₁ ++ g :: l₂)).countP isErrLine = 1 := by
  have hmem₁ : ∀ x ∈ l₁, x ∈ l₁ ++ g :: l₂ := fun x hx => List.mem_append_left _ hx
  have hmem₂ : ∀ x ∈ l₂, x ∈ l₁ ++ g :: l₂ :=
    fun x hx => List.mem_append_right _ (List.mem_cons_of_mem g hx)
  have hmemg : g ∈ l₁ ++ g :: l₂ := List.mem_append_right _ (List.mem_cons_self g l₂)
  refine ⟨fun h => ?_, fun h => ?_, fun h => ?_, rfl, ?_, ?_, ?_⟩
  · simp [PrintGPUCurrentClocks, h]
  · simp [PrintGPUCurrentTemperature, h]
  · simp [PrintGPUCurrentMemoryUsage, h]
  · rw [countP_SamplingPass]
    exact sum_map_eq_length _ _ fun x _ => status_countP_gpuLine api x
  · rw [countP_SamplingPass, List.map_append, List.map_cons, List.sum_append, List.sum_cons]
    rw [status_countP_clockLine api g, if_neg hfail]
    rw [sum_map_eq_length l₁ _ fun x hx => by
      rw [status_countP_clockLine, if_pos (hok x (List.mem_append_left _ hx))]]
    rw [sum_map_eq_length l₂ _ fun x hx => by
      rw [status_countP_clockLine, if_pos (hok x (List.mem_append_right _ hx))]]
    simp [List.length_append]
  · rw [countP_SamplingPass, List.map_append, List.map_cons, List.sum_append, List.sum_cons]
    rw [status_countP_errLine api g (hth g hmemg) (hmem g hmemg), if_neg hfail]
    rw [sum_map_eq_zero l₁ _ fun x hx => by
      rw [status_countP_errLine api x (hth x (hmem₁ x hx)) (hmem x (hmem₁ x hx)),
        if_pos (hok x (List.mem_append_left _ hx))]]
    rw [sum_map_eq_zero l₂ _ fun x hx => by
      rw [status_countP_errLine api x (hth x (hmem₂ x hx)) (hmem x (hmem₂ x hx)),
        if_pos (hok x (List.mem_append_right _ hx))]]
    omega

/-- C2 witness: the theorem applied to a concrete two-device provider whose
second device's clock query fails. -/
theorem c2_metric_failure_isolated_witness :
    (SamplingPass clockFailApi [gpuA, gpuB]).countP isGPULine = 2 ∧
    (SamplingPass clockFailApi [gpuA, gpuB]).countP isGraphicsClockLine = 1 ∧
    (SamplingPass clockFailApi [gpuA, gpuB]).countP isErrLine = 1 := by
  have h := c2_metric_failure_isolated clockFailApi gpuA gpuB [gpuA] []
    (by decide) (by decide) (by decide) (by decide)
  exact ⟨h.2.2.2.2.1, h.2.2.2.2.2.1, h.2.2.2.2.2.2⟩

/-- C10: a thermal query that succeeds with a zero sensor count produces no
temperature field and no diagnostic line (an empty trace), unlike a failed
thermal query, which produces exactly one diagnostic line. -/
theorem c10_zero_sensors_silent (api : NvAPI) (gpu : GPUInfo)
    (hok : (api.getThermalSettings gpu.physical_gpu 0).1 = 0)
    (hzero : (api.getThermalSettings gpu.physical_gpu 0).2.count = 0) :
    PrintGPUCurrentTemperature api gpu = [] ∧
    (∀ api2 : NvAPI, (api2.getThermalSettings gpu.physical_gpu 0).1 ≠ 0 →
      PrintGPUCurrentTemperature api2 gpu =
        [PrintError (api2.getThermalSettings gpu.physical_gpu 0).1
          "NvAPI_GPU_GetAllClockFrequencies failed:"] ∧
      (PrintGPUCurrentTemperature api2 gpu).countP isErrLine = 1) := by
  constructor
  · simp [PrintGPUCurrentTemperature, hok, hzero]
  · intro api2 h2
    have he : PrintGPUCurrentTemperature api2 gpu =
        [PrintError (api2.getThermalSettings gpu.physical_gpu 0).1
          "NvAPI_GPU_GetAllClockFrequencies failed:"] := by
      simp [PrintGPUCurrentTemperature, h2]
    exact ⟨he, by rw [he]; simp [PrintError, List.countP_cons]⟩

/-- C10 witness: the zero-sensor provider yields an empty temperature trace,
while the failing provider yields the diagnostic line. -/
theorem c10_zero_sensors_silent_witness :
    PrintGPUCurrentTemperature thermalZeroApi gpuA = [] ∧
    PrintGPUCurrentTemperature thermalFailApi gpuA =
      [PrintError (-7) "NvAPI_GPU_GetAllClockFrequencies failed:"] := by
  have h := c10_zero_sensors_silent thermalZeroApi gpuA (by decide) (by decide)
  exact ⟨h.1, (h.2 thermalFailApi (by decide)).1⟩

/-- C5: a failed tachometer call that leaves the out-buffer at its initial
zero produces the very trace a true zero-RPM reading produces — one stdout
field, no diagnostic, no failure signal. -/
theorem c5_fan_soft_failure (api : NvAPI) (gpu : GPUInfo)
    (hfail : (api.getTachReading gpu.physical_gpu 0).1 ≠ 0)
    (hnowrite : (api.getTachReading gpu.physical_gpu 0).2 = 0) :
    PrintGPUCurrentFanSpeed api gpu = [.out "Fan speed: 0 RPM\t"] ∧
    (∀ e ∈ PrintGPUCurrentFanSpeed api gpu, isErrLine e = false) ∧
    (∀ api2 : NvAPI, api2.getTachReading gpu.physical_gpu 0 = (0, 0) →
      PrintGPUCurrentFanSpeed api gpu = PrintGPUCurrentFanSpeed api2 gpu) := by
  have h1 : PrintGPUCurrentFanSpeed api gpu = [.out "Fan speed: 0 RPM\t"] := by
    simp only [PrintGPUCurrentFanSpeed, hnowrite]
    rfl
  refine ⟨h1, ?_, ?_⟩
  · rw [h1]
    intro e he
    simp only [List.mem_singleton] at he
    rw [he]
    rfl
  · intro api2 h2
    have h2' : (api2.getTachReading gpu.physical_gpu 0).2 = 0 := by rw [h2]
    rw [h1]
    simp only [PrintGPUCurrentFanSpeed, h2']
    rfl

/-- C5 witness: the failing-tachometer provider and the true-zero provider
produce identical fan-speed traces. -/
theorem c5_fan_soft_failure_witness :
    PrintGPUCurrentFanSpeed tachFailApi gpuA = [.out "Fan speed: 0 RPM\t"] ∧
    PrintGPUCurrentFanSpeed tachFailApi gpuA = PrintGPUCurrentFanSpeed zeroFanApi gpuA := by
  have h := c5_fan_soft_failure tachFailApi gpuA (by decide) (by decide)
  exact ⟨h.1, h.2.2 zeroFanApi (by decide)⟩

/-- C7: when the memory query succeeds, the report renders
"used / total" with `FormatSizeKB` on both values, where used is the 32-bit
unsigned difference of the enumeration-time total and the currently available
capacity; without wraparound that difference is the exact subtraction. -/
theorem c7_memory_usage (api : NvAPI) (gpu : GPUInfo)
    (hok : (api.getMemoryInfo gpu.physical_gpu).1 = 0) :
    PrintGPUCurrentMemoryUsage api gpu =
      [.out ("Memory usage: " ++
        (FormatSizeKB (sub32 gpu.vram_in_kb
          (api.getMemoryInfo gpu.physical_gpu).2.curAvailableDedicatedVideoMemory) ++
         (" / " ++ FormatSizeKB gpu.vram_in_kb))),
       .out "\t"] ∧
    (∀ a b : Nat, b ≤ a → a < 2 ^ 32 → sub32 a b = a - b) := by
  constructor
  · simp [PrintGPUCurrentMemoryUsage, hok]
  · intro a b hba ha
    unfold sub32
    rw [Nat.mod_eq_of_lt (lt_of_le_of_lt hba ha)]
    have h1 : a + 2 ^ 32 - b = (a - b) + 2 ^ 32 := by omega
    rw [h1, Nat.add_mod_right]
    exact Nat.mod_eq_of_lt (by omega)

/-- C7 witness: the theorem applied to the healthy provider and device A. -/
theorem c7_memory_usage_witness :
    PrintGPUCurrentMemoryUsage okApi gpuA =
      [.out ("Memory usage: " ++
        (FormatSizeKB (sub32 8388608 4194304) ++ (" / " ++ FormatSizeKB 8388608))),
       .out "\t"] ∧
    sub32 8388608 4194304 = 8388608 - 4194304 := by
  have h := c7_memory_usage okApi gpuA (by decide)
  exact ⟨h.1, h.2 8388608 4194304 (by decide) (by decide)⟩

/-- The catalog built by the enumeration loop is the in-order sequence of
successfully resolved devices, failures skipped. -/
lemma enumLoop_fst (api : NvAPI) (handles : List Nat) :
    (enumLoop api handles).1 = handles.filterMap fun h => (resolveGPU api h).1 := by
  induction handles with
  | nil => rfl
  | cons hd rest ih =>
    simp only [enumLoop, List.filterMap_cons]
    cases hr : (resolveGPU api hd).1 <;> simp [hr, ih]

/-- C3: `EnumerateGPUs` returns the empty catalog when listing fails and when
every listed device's resolution fails; each device whose name or capacity
resolution fails is skipped entirely, and the catalog is the in-provider-order
sequence of fully resolved devices. -/
theorem c3_enumerate_skips_failures (api : NvAPI) :
    (api.enumPhysicalGPUs.1 ≠ 0 → (EnumerateGPUs api).1 = []) ∧
    (api.enumPhysicalGPUs.1 = 0 →
      (EnumerateGPUs api).1 =
        api.enumPhysicalGPUs.2.filterMap fun h => (resolveGPU api h).1) ∧
    (api.enumPhysicalGPUs.1 = 0 →
      (∀ h ∈ api.enumPhysicalGPUs.2, (resolveGPU api h).1 = none) →
      (EnumerateGPUs api).1 = []) ∧
    (∀ handle, (api.getFullName handle).1 ≠ 0 → (resolveGPU api handle).1 = none) ∧
    (∀ handle, (api.getPhysicalFrameBufferSize handle).1 ≠ 0 →
      (resolveGPU api handle).1 = none) := by
  have hmain : api.enumPhysicalGPUs.1 = 0 →
      (EnumerateGPUs api).1 =
        api.enumPhysicalGPUs.2.filterMap fun h => (resolveGPU api h).1 := by
    intro h
    have he : EnumerateGPUs api = enumLoop api api.enumPhysicalGPUs.2 := by
      simp [EnumerateGPUs, h]
    rw [he, enumLoop_fst]
  refine ⟨fun h => ?_, hmain, fun h hall => ?_, fun handle hn => ?_, fun handle hs => ?_⟩
  · simp [EnumerateGPUs, h]
  · rw [hmain h]
    exact List.filterMap_eq_nil_iff.mpr hall
  · simp [resolveGPU, hn]
  · by_cases h1 : (api.getFullName handle).1 = 0 <;> simp [resolveGPU, h1, hs]

/-- C3 witness: the theorem applied to a provider whose listing fails and to a
provider for which every device's name resolution fails. -/
theorem c3_enumerate_skips_failures_witness :
    (EnumerateGPUs enumFailApi).1 = [] ∧
    (EnumerateGPUs resolveFailApi).1 = [] :=
  ⟨(c3_enumerate_skips_failures enumFailApi).1 (by decide),
   (c3_enumerate_skips_failures resolveFailApi).2.2.1 (by decide) (by decide)⟩

/-- C6: if provider initialization fails or enumeration yields no usable
device, every continuation of the process from startup is the failed-exit
state: the Running state is never entered, the exit code is the non-zero
`EXIT_FAILURE`, and in the empty-enumeration case the startup step writes
"No GPUs found." to stderr. -/
theorem c6_fatal_startup (api : NvAPI)
    (h : api.Initialize ≠ 0 ∨ (EnumerateGPUs api).1 = []) :
    (∀ k, mainRun api .startup (k + 1) = .exited EXIT_FAILURE) ∧
    EXIT_FAILURE ≠ 0 ∧
    (∀ gpus passes k, mainRun api .startup k ≠ .running gpus passes) ∧
    (api.Initialize = 0 → (EnumerateGPUs api).1 = [] →
      Event.err "No GPUs found.\n" ∈ (mainStep api .startup).2) := by
  have hexit : ∃ t, mainStartup api = .exit EXIT_FAILURE t := by
    by_cases hi : api.Initialize ≠ 0
    · exact ⟨[PrintError api.Initialize "NVAPI_Initialize failed: "],
        by simp [mainStartup, hi]⟩
    · rcases h with h | h
      · exact absurd h hi
      · refine ⟨(EnumerateGPUs api).2 ++ [.err "No GPUs found.\n", .unload], ?_⟩
        simp only [mainStartup]
        rw [if_neg hi, if_pos (by rw [h]; rfl)]
  obtain ⟨t, ht⟩ := hexit
  have habs : ∀ k, mainRun api .startup (k + 1) = .exited EXIT_FAILURE := by
    intro k
    induction k with
    | zero => simp [mainRun, mainStep, ht]
    | succ n ih =>
      have hstep : mainRun api .startup (n + 2)
          = (mainStep api (mainRun api .startup (n + 1))).1 := rfl
      rw [hstep, ih]
      rfl
  refine ⟨habs, by decide, ?_, ?_⟩
  · intro gpus passes k
    cases k with
    | zero => simp [mainRun]
    | succ n => rw [habs n]; simp
  · intro hi he
    have ht2 : mainStartup api
        = .exit EXIT_FAILURE ((EnumerateGPUs api).2 ++ [.err "No GPUs found.\n", .unload]) := by
      simp only [mainStartup]
      rw [if_neg (fun hne => hne hi), if_pos (by rw [he]; rfl)]
    simp [mainStep, ht2]

/-- C6 witness: the theorem applied to a provider whose initialization fails
and to one that enumerates no usable device. -/
theorem c6_fatal_startup_witness :
    mainRun initFailApi .startup 1 = .exited EXIT_FAILURE ∧
    Event.err "No GPUs found.\n" ∈ (mainStep resolveFailApi .startup).2 :=
  ⟨(c6_fatal_startup initFailApi (Or.inl (by decide))).1 0,
   (c6_fatal_startup resolveFailApi (Or.inr (by decide))).2.2.2 (by decide) (by decide)⟩

/-- C8: from the Running state every number of further steps lands back in the
Running state with the pass counter advanced, so no exited state — and hence
neither the teardown nor the success exit after the loop — is reachable from
within the loop. -/
theorem c8_loop_never_terminates (api : NvAPI) (gpus : List GPUInfo) (passes k : Nat) :
    mainRun api (.running gpus passes) k = .running gpus (passes + k) ∧
    (∀ code, mainRun api (.running gpus passes) k ≠ .exited code) ∧
    (∀ code t, mainStep api (.running gpus passes) ≠ (.exited code, t)) := by
  have hrun : ∀ n, mainRun api (.running gpus passes) n = .running gpus (passes + n) := by
    intro n
    induction n with
    | zero => rfl
    | succ m ih =>
      have hstep : mainRun api (.running gpus passes) (m + 1)
          = (mainStep api (mainRun api (.running gpus passes) m)).1 := rfl
      rw [hstep, ih]
      rfl
  exact ⟨hrun k, fun code => by rw [hrun k]; simp, fun code t => by simp [mainStep]⟩

end NVGPUInfo
